import Mathlib

/-!
Verification of the land2port crop-decision core.

Shallow embedding of the Rust sources (src/crop.rs, src/image.rs,
src/video_processor_utils.rs, src/history.rs, src/main.rs,
src/history_smoothing_video_processor.rs, src/ball_video_processor.rs)
with f32/f64 values represented as rationals.  Fallible operations
(Rust unwrap/index sites) are modelled with Option.
-/

namespace Land2Port

/-- Machine epsilon of f32, used by CropArea::is_within_percentage. -/
def f32_epsilon : ℚ := 1 / 8388608

/-- Horizontal bounding box (usls::Hbb): stored x, y, width, height plus the
optional confidence and class name carried by detections. -/
structure Hbb where
  x : ℚ
  y : ℚ
  w : ℚ
  h : ℚ
  confidence : Option ℚ := none
  name : Option String := none
deriving DecidableEq, Repr

def Hbb.xmin (b : Hbb) : ℚ := b.x
def Hbb.ymin (b : Hbb) : ℚ := b.y
def Hbb.xmax (b : Hbb) : ℚ := b.x + b.w
def Hbb.ymax (b : Hbb) : ℚ := b.y + b.h
def Hbb.cx (b : Hbb) : ℚ := b.x + b.w / 2
def Hbb.cy (b : Hbb) : ℚ := b.y + b.h / 2
def Hbb.width (b : Hbb) : ℚ := b.w
def Hbb.height (b : Hbb) : ℚ := b.h
def Hbb.area (b : Hbb) : ℚ := b.w * b.h

/-- Hbb::from_xywh: builds a box from top-left corner and size (no
confidence or name). -/
def Hbb.from_xywh (x y w h : ℚ) : Hbb := ⟨x, y, w, h, none, none⟩

/-- Hbb::from_cxcywh: builds a box from center and size (no confidence or
name). -/
def Hbb.from_cxcywh (cx cy w h : ℚ) : Hbb := ⟨cx - w / 2, cy - h / 2, w, h, none, none⟩

/-- CropArea from src/crop.rs. -/
structure CropArea where
  x : ℚ
  y : ℚ
  width : ℚ
  height : ℚ
deriving DecidableEq, Repr

/-- CropArea::is_within_percentage: each of x, y, width, height must differ
by at most threshold_percent/100 of frame_width (plus f32::EPSILON). -/
def CropArea.is_within_percentage (self other : CropArea) (frame_width threshold_percent : ℚ) : Bool :=
  let threshold := threshold_percent / 100
  let is_within_threshold : ℚ → ℚ → Bool := fun a b =>
    decide (|a - b| / frame_width ≤ threshold + f32_epsilon)
  is_within_threshold self.x other.x && is_within_threshold self.y other.y &&
    is_within_threshold self.width other.width && is_within_threshold self.height other.height

/-- CropResult from src/crop.rs. -/
inductive CropResult where
  | Single (crop : CropArea)
  | Stacked (crop1 crop2 : CropArea)
  | Resize (crop : CropArea)
deriving DecidableEq, Repr

/-- compute_three_four_width from src/crop.rs. -/
def compute_three_four_width (frame_height : ℚ) : ℚ := frame_height * (3 / 4)

/-- clamp_x_for_width from src/crop.rs. -/
def clamp_x_for_width (x width frame_width : ℚ) : ℚ :=
  if x < 0 then 0
  else if x + width > frame_width then frame_width - width
  else x

/-- make_single_crop_centered from src/crop.rs. -/
def make_single_crop_centered (center_x frame_width frame_height : ℚ) : CropArea :=
  let height := frame_height
  let width := compute_three_four_width frame_height
  let x := clamp_x_for_width (center_x - width / 2) width frame_width
  ⟨x, 0, width, height⟩

/-- center_x_of_bbox from src/crop.rs. -/
def center_x_of_bbox (bbox : CropArea) : ℚ := bbox.x + bbox.width / 2

/-- half_stack_dims from src/crop.rs: (crop_width, crop_height, default_y). -/
def half_stack_dims (frame_width frame_height : ℚ) : ℚ × ℚ × ℚ :=
  let crop_width := frame_width * (1 / 2)
  let crop_height := crop_width * (8 / 9)
  let default_y := (frame_height - crop_height) / 2
  (crop_width, crop_height, default_y)

/-- vertical_y_for_heads from src/crop.rs. -/
def vertical_y_for_heads (heads : List Hbb) (default_y frame_height crop_height : ℚ) : ℚ :=
  match heads with
  | [] => default_y
  | hd :: tl =>
    let group_top := tl.foldl (fun a g => min a g.ymin) hd.ymin
    let group_bottom := tl.foldl (fun a g => max a g.ymax) hd.ymax
    if group_top < default_y then 0
    else if group_bottom > default_y + crop_height then frame_height - crop_height
    else default_y

/-- calculate_bounding_box from src/crop.rs: minimal axis-aligned rectangle
containing all boxes; the zero rectangle for an empty list. -/
def calculate_bounding_box : List Hbb → CropArea
  | [] => ⟨0, 0, 0, 0⟩
  | hd :: tl =>
    let init : ℚ × ℚ × ℚ × ℚ := (hd.xmin, hd.ymin, hd.xmax, hd.ymax)
    let folded := tl.foldl
      (fun acc g =>
        match acc with
        | (mnx, mny, mxx, mxy) => (min mnx g.xmin, min mny g.ymin, max mxx g.xmax, max mxy g.ymax))
      init
    match folded with
    | (mnx, mny, mxx, mxy) => ⟨mnx, mny, mxx - mnx, mxy - mny⟩

/-- calculate_no_heads_crop from src/crop.rs. -/
def calculate_no_heads_crop (frame_width frame_height : ℚ) (is_graphic : Bool) : CropResult :=
  if is_graphic then
    CropResult.Resize ⟨0, 0, frame_width, frame_height⟩
  else
    let center_x := frame_width / 2
    CropResult.Single (make_single_crop_centered center_x frame_width frame_height)

/-- calculate_single_head_crop from src/crop.rs. -/
def calculate_single_head_crop (frame_width frame_height : ℚ) (head : Hbb) : CropResult :=
  CropResult.Single (make_single_crop_centered head.cx frame_width frame_height)

/-- calculate_crop_from_largest_head from src/crop.rs.  Rust unwraps
max_by over the head list (last maximal element); empty input is the
panic case, modelled as none. -/
def calculate_crop_from_largest_head (frame_width frame_height : ℚ) : List Hbb → Option CropResult
  | [] => none
  | hd :: tl =>
    let largest_head := tl.foldl (fun acc g => if g.area ≥ acc.area then g else acc) hd
    let head_center_x := largest_head.cx
    let height := frame_height
    let width := height * (3 / 4)
    let x0 := head_center_x - width / 2
    let x := if x0 < 0 then 0 else if x0 + width > frame_width then frame_width - width else x0
    some (CropResult.Single ⟨x, 0, width, height⟩)

/-- The crop1_x adjustment of calculate_two_heads_crop when a head spans
both halves: nudge right to contain the left head's right edge, then left
to contain its left edge, then clamp into [0, crop_width]. -/
def stackedCrop1X (left_head : Hbb) (crop_width : ℚ) : ℚ :=
  let a := if left_head.xmax > 0 + crop_width then left_head.xmax - crop_width else 0
  let b := if left_head.xmin < a then left_head.xmin else a
  min (max b 0) crop_width

/-- The crop2_x adjustment of calculate_two_heads_crop when a head spans
both halves: nudge left to contain the right head's left edge, then right
to contain its right edge, then clamp into [0, crop_width]. -/
def stackedCrop2X (right_head : Hbb) (crop_width : ℚ) : ℚ :=
  let a := if right_head.xmin < crop_width then right_head.xmin else crop_width
  let b := if right_head.xmax > a + crop_width then right_head.xmax - crop_width else a
  min (max b 0) crop_width

/-- calculate_two_heads_crop from src/crop.rs. -/
def calculate_two_heads_crop (use_stack_crop : Bool) (frame_width frame_height : ℚ)
    (head1 head2 : Hbb) : Option CropResult :=
  let bbox := calculate_bounding_box [head1, head2]
  if bbox.width ≤ frame_height * (3 / 4) then
    some (CropResult.Single (make_single_crop_centered (center_x_of_bbox bbox) frame_width frame_height))
  else if use_stack_crop then
    let dims := half_stack_dims frame_width frame_height
    let crop_width := dims.1
    let crop_height := dims.2.1
    let default_y := dims.2.2
    let lr := if head1.cx ≤ head2.cx then (head1, head2) else (head2, head1)
    let left_head := lr.1
    let right_head := lr.2
    let crop1_y := vertical_y_for_heads [left_head] default_y frame_height crop_height
    let crop2_y := vertical_y_for_heads [right_head] default_y frame_height crop_height
    let left_head_in_crop1 := max (min left_head.xmax (0 + crop_width) - max left_head.xmin 0) 0
    let left_head_in_crop2 :=
      max (min left_head.xmax (crop_width + crop_width) - max left_head.xmin crop_width) 0
    let right_head_in_crop1 := max (min right_head.xmax (0 + crop_width) - max right_head.xmin 0) 0
    let right_head_in_crop2 :=
      max (min right_head.xmax (crop_width + crop_width) - max right_head.xmin crop_width) 0
    let left_head_spans := decide (left_head_in_crop1 > 0) && decide (left_head_in_crop2 > 0)
    let right_head_spans := decide (right_head_in_crop1 > 0) && decide (right_head_in_crop2 > 0)
    let xs :=
      if left_head_spans || right_head_spans then
        (stackedCrop1X left_head crop_width, stackedCrop2X right_head crop_width)
      else (0, crop_width)
    some (CropResult.Stacked ⟨xs.1, crop1_y, crop_width, crop_height⟩
      ⟨xs.2, crop2_y, crop_width, crop_height⟩)
  else
    calculate_crop_from_largest_head frame_width frame_height [head1, head2]

/-- Smallest xmin of a non-empty head list (fold seeded with f32::MAX in
the source, guarded by a non-emptiness check). -/
def headsMinX : List Hbb → ℚ
  | [] => 0
  | hd :: tl => tl.foldl (fun a g => min a g.xmin) hd.xmin

/-- Largest xmax of a non-empty head list. -/
def headsMaxX : List Hbb → ℚ
  | [] => 0
  | hd :: tl => tl.foldl (fun a g => max a g.xmax) hd.xmax

/-- calculate_four_and_five_heads_crop from src/crop.rs. -/
def calculate_four_and_five_heads_crop (use_stack_crop : Bool) (frame_width frame_height : ℚ)
    (heads : List Hbb) : Option CropResult :=
  let bbox := calculate_bounding_box heads
  if bbox.width ≤ frame_height * (3 / 4) then
    some (CropResult.Single (make_single_crop_centered (center_x_of_bbox bbox) frame_width frame_height))
  else if use_stack_crop then
    let dims := half_stack_dims frame_width frame_height
    let crop_width := dims.1
    let crop_height := dims.2.1
    let default_y := dims.2.2
    let all_heads_contained := heads.all (fun hd =>
      (decide (hd.xmin ≥ 0) && decide (hd.xmax ≤ 0 + crop_width)) ||
        (decide (hd.xmin ≥ crop_width) && decide (hd.xmax ≤ crop_width + crop_width)))
    let frame_center := frame_width / 2
    let crop1_heads := heads.filter (fun hd => decide (hd.cx < frame_center))
    let crop2_heads := heads.filter (fun hd => !decide (hd.cx < frame_center))
    if all_heads_contained then
      let left_y := vertical_y_for_heads crop1_heads default_y frame_height crop_height
      let right_y := vertical_y_for_heads crop2_heads default_y frame_height crop_height
      some (CropResult.Stacked ⟨0, left_y, crop_width, crop_height⟩
        ⟨crop_width, right_y, crop_width, crop_height⟩)
    else
      let crop1_y := if crop1_heads.isEmpty then default_y
        else vertical_y_for_heads crop1_heads default_y frame_height crop_height
      let crop2_y := if crop2_heads.isEmpty then default_y
        else vertical_y_for_heads crop2_heads default_y frame_height crop_height
      let x1 := if crop1_heads.isEmpty then (0 : ℚ)
        else
          let min_x := headsMinX crop1_heads
          let max_x := headsMaxX crop1_heads
          let v := if max_x - min_x > crop_width then (min_x + max_x - crop_width) / 2 else min_x
          min (max v 0) crop_width
      let x2 := if crop2_heads.isEmpty then crop_width
        else
          let min_x := headsMinX crop2_heads
          let max_x := headsMaxX crop2_heads
          let v := if max_x - min_x > crop_width then (min_x + max_x - crop_width) / 2
            else max_x - crop_width
          min (max v 0) crop_width
      let final := heads.foldl
        (fun (p : ℚ × ℚ) hd =>
          let in_crop1 := decide (hd.xmin ≥ p.1) && decide (hd.xmax ≤ p.1 + crop_width)
          let in_crop2 := decide (hd.xmin ≥ p.2) && decide (hd.xmax ≤ p.2 + crop_width)
          if !in_crop1 && !in_crop2 then
            let dist_to_crop1 := |hd.cx - (p.1 + crop_width / 2)|
            let dist_to_crop2 := |hd.cx - (p.2 + crop_width / 2)|
            if dist_to_crop1 ≤ dist_to_crop2 then (min (max hd.xmin 0) crop_width, p.2)
            else (p.1, min (max (hd.xmax - crop_width) 0) crop_width)
          else p)
        (x1, x2)
      some (CropResult.Stacked ⟨final.1, crop1_y, crop_width, crop_height⟩
        ⟨final.2, crop2_y, crop_width, crop_height⟩)
  else
    calculate_crop_from_largest_head frame_width frame_height heads

/-- Ascending sort of three values, modelling Vec::sort_by on the three
head centers in calculate_three_heads_crop. -/
def sort3 (a b c : ℚ) : ℚ × ℚ × ℚ :=
  if a ≤ b then
    if b ≤ c then (a, b, c)
    else if a ≤ c then (a, c, b)
    else (c, a, b)
  else
    if a ≤ c then (b, a, c)
    else if b ≤ c then (b, c, a)
    else (c, b, a)

/-- calculate_three_heads_crop from src/crop.rs.  The two .find().unwrap()
sites (locating the heads whose centers are the two left-most sorted
centers) are modelled with Option; a failing find is the panic case. -/
def calculate_three_heads_crop (use_stack_crop : Bool) (frame_width frame_height : ℚ)
    (heads : List Hbb) : Option CropResult :=
  match heads with
  | [a, b, c] =>
    let min_area := min a.area (min b.area c.area)
    let max_area := max a.area (max b.area c.area)
    let size_ratio := max_area / min_area
    let similar_size := decide (size_ratio ≤ 5 / 2)
    let sorted_centers := sort3 a.cx b.cx c.cx
    let spacing1 := sorted_centers.2.1 - sorted_centers.1
    let spacing2 := sorted_centers.2.2 - sorted_centers.2.1
    let spacing_ratio := max spacing1 spacing2 / min spacing1 spacing2
    let equally_spaced := decide (spacing_ratio ≤ 2)
    if similar_size && equally_spaced && use_stack_crop then
      let crop1_height := frame_height * (8 / 10)
      let crop1_width := crop1_height * (3 / 2)
      let crop1_y := frame_height * (1 / 10)
      let crop2_height := frame_height * (8 / 10)
      let crop2_width := crop2_height * (9 / 10)
      let crop2_y := frame_height * (15 / 100)
      let leftmost_center := sorted_centers.1
      let middle_center := sorted_centers.2.1
      match [a, b, c].find? (fun hd => decide (|hd.cx - leftmost_center| < 1)),
          [a, b, c].find? (fun hd => decide (|hd.cx - middle_center| < 1)) with
      | some head1, some head2 =>
        let min_x := min head1.xmin head2.xmin
        let max_x := max head1.xmax head2.xmax
        let center_between_two := (min_x + max_x) / 2
        let crop1_x := min (max (center_between_two - crop1_width / 2) 0) (frame_width - crop1_width)
        let rightmost_center := sorted_centers.2.2
        let crop2_x := min (max (rightmost_center - crop2_width / 2) 0) (frame_width - crop2_width)
        some (CropResult.Stacked ⟨crop1_x, crop1_y, crop1_width, crop1_height⟩
          ⟨crop2_x, crop2_y, crop2_width, crop2_height⟩)
      | _, _ => none
    else
      calculate_four_and_five_heads_crop use_stack_crop frame_width frame_height heads
  | _ => none

/-- calculate_six_or_more_heads_crop from src/crop.rs. -/
def calculate_six_or_more_heads_crop (use_stack_crop : Bool) (frame_width frame_height : ℚ)
    (heads : List Hbb) : CropResult :=
  let bbox := calculate_bounding_box heads
  if bbox.width ≤ frame_height * (3 / 4) then
    CropResult.Single (make_single_crop_centered (center_x_of_bbox bbox) frame_width frame_height)
  else
    let indexed := heads.enum
    let large := indexed.find? (fun p =>
      indexed.all (fun q => p.1 == q.1 || decide (p.2.area ≥ q.2.area * (5 / 2))))
    match large with
    | some (large_head_idx, large_head) =>
      if use_stack_crop then
        let dims := half_stack_dims frame_width frame_height
        let crop_width := dims.1
        let crop_height := dims.2.1
        let crop_y := dims.2.2
        let crop1_x := min (max (large_head.cx - crop_width / 2) 0) (frame_width - crop_width)
        let remaining_heads := (indexed.filter (fun q => q.1 != large_head_idx)).map Prod.snd
        if remaining_heads.isEmpty then
          CropResult.Single ⟨crop1_x, 0, crop_width, frame_height⟩
        else
          let remaining_bbox := calculate_bounding_box remaining_heads
          let crop2_x0 :=
            min (max (center_x_of_bbox remaining_bbox - crop_width / 2) 0) (frame_width - crop_width)
          let crop2_x :=
            if |crop1_x - crop2_x0| < crop_width * (1 / 2) then
              if crop1_x < frame_width / 2 then frame_width - crop_width else 0
            else crop2_x0
          CropResult.Stacked ⟨crop1_x, crop_y, crop_width, crop_height⟩
            ⟨crop2_x, crop_y, crop_width, crop_height⟩
      else
        calculate_single_head_crop frame_width frame_height large_head
    | none =>
      calculate_no_heads_crop frame_width frame_height false

/-- calculate_crop_area from src/crop.rs: dispatch purely on head count.
The Result return type is modelled as Option (the error branch of the Rust
Result is never constructed; none marks the unwrap/panic sites of the
helpers). -/
def calculate_crop_area (use_stack_crop is_graphic : Bool) (frame_width frame_height : ℚ)
    (heads : List Hbb) : Option CropResult :=
  match heads with
  | [] => some (calculate_no_heads_crop frame_width frame_height is_graphic)
  | [hd] => some (calculate_single_head_crop frame_width frame_height hd)
  | [h1, h2] => calculate_two_heads_crop use_stack_crop frame_width frame_height h1 h2
  | [h1, h2, h3] => calculate_three_heads_crop use_stack_crop frame_width frame_height [h1, h2, h3]
  | hs =>
    if hs.length ≤ 5 then
      calculate_four_and_five_heads_crop use_stack_crop frame_width frame_height hs
    else
      some (calculate_six_or_more_heads_crop use_stack_crop frame_width frame_height hs)

/-- is_crop_similar from src/crop.rs (has a Resize/Resize arm). -/
def is_crop_similar (crop1 crop2 : CropResult) (width threshold : ℚ) : Bool :=
  match crop1, crop2 with
  | CropResult.Single c1, CropResult.Single c2 => c1.is_within_percentage c2 width threshold
  | CropResult.Stacked c11 c12, CropResult.Stacked c21 c22 =>
    c11.is_within_percentage c21 width threshold && c12.is_within_percentage c22 width threshold
  | CropResult.Resize c1, CropResult.Resize c2 => c1.is_within_percentage c2 width threshold
  | _, _ => false

/-- The local is_crop_similar of src/main.rs: identical except that it has
no Resize/Resize arm (two Resize decisions are never similar). -/
def main_is_crop_similar (crop1 crop2 : CropResult) (width threshold : ℚ) : Bool :=
  match crop1, crop2 with
  | CropResult.Single c1, CropResult.Single c2 => c1.is_within_percentage c2 width threshold
  | CropResult.Stacked c11 c12, CropResult.Stacked c21 c22 =>
    c11.is_within_percentage c21 width threshold && c12.is_within_percentage c22 width threshold
  | _, _ => false

/-- is_crop_class_same from src/crop.rs: inner get_crop_class. -/
def get_crop_class (head_count : ℕ) : ℕ :=
  match head_count with
  | 0 => 0
  | 1 => 1
  | 2 => 2
  | 3 => 3
  | _ => 4

/-- is_crop_class_same from src/crop.rs. -/
def is_crop_class_same (head_count1 head_count2 : ℕ) : Bool :=
  get_crop_class head_count1 == get_crop_class head_count2

/-- The count partition asserted by the spec: two counts are equivalent
iff they fall in the same bucket of {0},{1},{2},{3},{4,5},{6,7,8,...}. -/
def specSameBucket (n1 n2 : ℕ) : Prop :=
  (n1 = 0 ∧ n2 = 0) ∨ (n1 = 1 ∧ n2 = 1) ∨ (n1 = 2 ∧ n2 = 2) ∨ (n1 = 3 ∧ n2 = 3) ∨
    ((n1 = 4 ∨ n1 = 5) ∧ (n2 = 4 ∨ n2 = 5)) ∨ (6 ≤ n1 ∧ 6 ≤ n2)

/-- The partition the code actually implements: buckets
{0},{1},{2},{3},{4,5,6,...}. -/
def codeSameBucket (n1 n2 : ℕ) : Prop :=
  (n1 = 0 ∧ n2 = 0) ∨ (n1 = 1 ∧ n2 = 1) ∨ (n1 = 2 ∧ n2 = 2) ∨ (n1 = 3 ∧ n2 = 3) ∨
    (4 ≤ n1 ∧ 4 ≤ n2)

instance (n1 n2 : ℕ) : Decidable (specSameBucket n1 n2) := by
  unfold specSameBucket; infer_instance

instance (n1 n2 : ℕ) : Decidable (codeSameBucket n1 n2) := by
  unfold codeSameBucket; infer_instance

/-- CutDetector state from src/image.rs. -/
structure CutDetector where
  previous_score : Option ℚ
  similarity_threshold : ℚ
  previous_similarity_threshold : ℚ
deriving DecidableEq, Repr

/-- CutDetector::is_cut from src/image.rs, as a pure step on the detector
state.  The perceptual similarity score of the two images (the value
returned by image_compare::rgb_hybrid_compare) is taken as the input
current_score; the function returns the cut verdict and the updated
detector. -/
def CutDetector.is_cut_step (d : CutDetector) (current_score : ℚ) : Bool × CutDetector :=
  let verdict :=
    match d.previous_score with
    | some prev_score =>
      decide (current_score < 8 / 100) ||
        (decide (current_score < d.similarity_threshold) &&
          decide (prev_score > d.previous_similarity_threshold))
    | none =>
      decide (current_score < 8 / 100) || decide (current_score < d.similarity_threshold)
  (verdict, ⟨some current_score, d.similarity_threshold, d.previous_similarity_threshold⟩)

/-- predict_current_hbb from src/video_processor_utils.rs: second-order
extrapolation from the three most recent positions, keeping the last
width/height, top-left clamped into [0, max] per axis. -/
def predict_current_hbb (three_frames_ago two_frames_ago last_frame : Hbb)
    (max_x max_y : ℚ) : Hbb :=
  let v1_x := two_frames_ago.xmin - three_frames_ago.xmin
  let v1_y := two_frames_ago.ymin - three_frames_ago.ymin
  let v2_x := last_frame.xmin - two_frames_ago.xmin
  let v2_y := last_frame.ymin - two_frames_ago.ymin
  let ax := v2_x - v1_x
  let ay := v2_y - v1_y
  let predicted_x := last_frame.xmin + v2_x + (1 / 2) * ax
  let predicted_y := last_frame.ymin + v2_y + (1 / 2) * ay
  Hbb.from_xywh (min (max predicted_x 0) max_x) (min (max predicted_y 0) max_y)
    last_frame.width last_frame.height

/-- extract_objects_above_threshold from src/video_processor_utils.rs.
The detection's hbbs() accessor is modelled as an optional list. -/
def extract_objects_above_threshold (detection : Option (List Hbb)) (object_name : String)
    (object_prob_threshold object_area_threshold frame_width frame_height : ℚ) : List Hbb :=
  match detection with
  | some hbbs =>
    let frame_area := frame_width * frame_height
    hbbs.filter (fun hbb =>
      let meets_threshold :=
        match hbb.confidence with
        | some confidence => decide (confidence ≥ object_prob_threshold)
        | none => false
      let matches_name :=
        match hbb.name with
        | some nm => nm == object_name
        | none => false
      let meets_area_threshold :=
        if object_name == "ball" then true
        else
          let object_area := hbb.width * hbb.height
          let area_percentage := object_area / frame_area
          decide (area_percentage ≥ object_area_threshold)
      meets_threshold && matches_name && meets_area_threshold)
  | none => []

/-- State of BallVideoProcessor (src/ball_video_processor.rs).  The stored
most_recent_image is tracked only through its presence (has_image), since
only the cut detector consumes it. -/
structure BallState where
  previous_crop : Option CropResult
  has_image : Bool
  hbb_three_frames_ago : Option Hbb
  hbb_two_frames_ago : Option Hbb
  hbb_last_frame : Option Hbb
  detector : CutDetector
deriving DecidableEq, Repr

/-- Rust Iterator::max_by keeps the last maximal element under the given
comparison on unwrap_or(0) confidences. -/
def maxByConfidence : List Hbb → Option Hbb
  | [] => none
  | hd :: tl =>
    some (tl.foldl
      (fun acc g =>
        if (g.confidence.getD 0) ≥ (acc.confidence.getD 0) then g else acc) hd)

/-- BallVideoProcessor::process_frame_with_smoothing from
src/ball_video_processor.rs, as a pure step.  score is the similarity
score the cut detector would compute between the stored image and the
current frame (unused on the first frame, where is_cut is true without
consulting the detector); the rendered crop and the updated state are
returned, none marking the unwrap/panic sites. -/
def ballStep (st : BallState) (score : ℚ) (frame_width frame_height : ℚ)
    (latest_crop : CropResult) (objects : List Hbb) : Option (CropResult × BallState) :=
  let cut := if st.has_image then st.detector.is_cut_step score else (true, st.detector)
  let is_cut := cut.1
  let detector := cut.2
  let current_ball_count := objects.length
  if is_cut then
    some (latest_crop,
      ⟨some latest_crop, true, none, none, none, detector⟩)
  else if current_ball_count > 0 then
    if current_ball_count > 1 then
      match maxByConfidence objects with
      | some highest_confidence_ball =>
        match calculate_crop_area false false frame_width frame_height
            [highest_confidence_ball] with
        | some single_ball_crop =>
          some (single_ball_crop,
            ⟨some single_ball_crop, true, st.hbb_two_frames_ago, st.hbb_last_frame,
              some (Hbb.from_cxcywh highest_confidence_ball.cx highest_confidence_ball.cy
                highest_confidence_ball.width highest_confidence_ball.height), detector⟩)
        | none => none
      | none => none
    else
      match objects with
      | ball :: _ =>
        some (latest_crop,
          ⟨some latest_crop, true, st.hbb_two_frames_ago, st.hbb_last_frame, some ball, detector⟩)
      | [] => none
  else
    match st.hbb_three_frames_ago, st.hbb_two_frames_ago, st.hbb_last_frame with
    | some three_frames_ago, some two_frames_ago, some last_frame =>
      let current_hbb :=
        predict_current_hbb three_frames_ago two_frames_ago last_frame frame_width frame_height
      match calculate_crop_area false false frame_width frame_height [current_hbb] with
      | some current_crop =>
        some (current_crop,
          ⟨some current_crop, true, st.hbb_two_frames_ago, st.hbb_last_frame,
            some current_hbb, detector⟩)
      | none => none
    | _, _, _ =>
      match st.previous_crop with
      | some prev_crop =>
        some (prev_crop,
          ⟨st.previous_crop, true, st.hbb_two_frames_ago, st.hbb_last_frame, none, detector⟩)
      | none =>
        some (latest_crop,
          ⟨some latest_crop, true, st.hbb_two_frames_ago, st.hbb_last_frame, none, detector⟩)

/-- FrameData from src/history.rs: a buffered crop decision, the frame it
belongs to (tracked by an identifier) and the object count. -/
structure FrameData where
  crop : CropResult
  image : ℕ
  head_count : ℕ
deriving DecidableEq, Repr

/-- Mutable smoothing state of the history-buffered controllers
(src/main.rs and src/history_smoothing_video_processor.rs): previous
committed crop, its head count, and the CropHistory FIFO (front = head of
the list; CropHistory::add appends at the tail, pop_front removes the
head). -/
structure SmoothState where
  previous_crop : Option CropResult
  previous_head_count : ℕ
  history : List FrameData
deriving DecidableEq, Repr

/-- The per-frame smoothing state machine of src/main.rs (lines 195-285),
as a pure step.  Returns the list of (frame image, crop) pairs handed to
process_and_display_crop, in order, together with the updated state. -/
def mainStep (st : SmoothState) (img : ℕ) (latest_crop : CropResult) (current_head_count : ℕ)
    (frame_width smooth_percentage : ℚ) (smooth_duration : ℕ) :
    List (ℕ × CropResult) × SmoothState :=
  match st.previous_crop with
  | none => ([(img, latest_crop)], ⟨some latest_crop, current_head_count, st.history⟩)
  | some prev_crop =>
    let is_same_class := is_crop_class_same current_head_count st.previous_head_count
    let is_latest_crop_similar :=
      main_is_crop_similar latest_crop prev_crop frame_width smooth_percentage
    if is_same_class && is_latest_crop_similar then
      (st.history.map (fun f => (f.image, prev_crop)) ++ [(img, prev_crop)],
        ⟨some prev_crop, st.previous_head_count, []⟩)
    else
      match st.history with
      | [] =>
        ([], ⟨some prev_crop, st.previous_head_count,
          [⟨latest_crop, img, current_head_count⟩]⟩)
      | front :: rest =>
        let change_crop := front.crop
        let change_head_count := front.head_count
        let is_change_crop_similar :=
          main_is_crop_similar latest_crop change_crop frame_width smooth_percentage
        let is_change_head_count_similar :=
          is_crop_class_same current_head_count change_head_count
        if is_change_crop_similar && is_change_head_count_similar then
          if (front :: rest).length = smooth_duration then
            ((front :: rest).map (fun f => (f.image, change_crop)) ++ [(img, change_crop)],
              ⟨some change_crop, change_head_count, []⟩)
          else
            ([], ⟨some prev_crop, st.previous_head_count,
              (front :: rest) ++ [⟨change_crop, img, change_head_count⟩]⟩)
        else
          let crop_to_use :=
            match prev_crop, change_crop with
            | CropResult.Stacked _ _, CropResult.Single _ => change_crop
            | _, _ => prev_crop
          ((front :: rest).map (fun f => (f.image, crop_to_use)),
            ⟨some prev_crop, st.previous_head_count,
              [⟨latest_crop, img, current_head_count⟩]⟩)

/-- The per-frame step of
HistorySmoothingVideoProcessor::process_frame_with_smoothing
(src/history_smoothing_video_processor.rs).  It differs from the main.rs
machine in three ways: it uses crop::is_crop_similar (which has a
Resize/Resize arm), on promotion it records the current head count, and
when the change hypothesis is rejected it first consults a cut check
between the newest buffered image and the current frame.
Modelled from the spec: the cut predicate image::is_cut called there is
absent from src/image.rs (which only has the stateful CutDetector), so
its boolean verdict for this frame pair is taken as the input cut. -/
def hsStep (st : SmoothState) (img : ℕ) (latest_crop : CropResult) (current_head_count : ℕ)
    (frame_width smooth_percentage : ℚ) (smooth_duration : ℕ) (cut : Bool) :
    List (ℕ × CropResult) × SmoothState :=
  match st.previous_crop with
  | none => ([(img, latest_crop)], ⟨some latest_crop, current_head_count, st.history⟩)
  | some prev_crop =>
    let is_same_class := is_crop_class_same current_head_count st.previous_head_count
    let is_latest_crop_similar :=
      is_crop_similar latest_crop prev_crop frame_width smooth_percentage
    if is_same_class && is_latest_crop_similar then
      (st.history.map (fun f => (f.image, prev_crop)) ++ [(img, prev_crop)],
        ⟨some prev_crop, st.previous_head_count, []⟩)
    else
      match st.history with
      | [] =>
        ([], ⟨some prev_crop, st.previous_head_count,
          [⟨latest_crop, img, current_head_count⟩]⟩)
      | front :: rest =>
        let change_crop := front.crop
        let change_head_count := front.head_count
        let is_change_crop_similar :=
          is_crop_similar latest_crop change_crop frame_width smooth_percentage
        let is_change_head_count_similar :=
          is_crop_class_same current_head_count change_head_count
        if is_change_crop_similar && is_change_head_count_similar then
          if (front :: rest).length = smooth_duration then
            ((front :: rest).map (fun f => (f.image, change_crop)) ++ [(img, change_crop)],
              ⟨some change_crop, current_head_count, []⟩)
          else
            ([], ⟨some prev_crop, st.previous_head_count,
              (front :: rest) ++ [⟨change_crop, img, change_head_count⟩]⟩)
        else
          let crop_to_use :=
            if cut then prev_crop
            else
              match prev_crop, change_crop with
              | CropResult.Stacked _ _, CropResult.Single _ => change_crop
              | _, _ => prev_crop
          ((front :: rest).map (fun f => (f.image, crop_to_use)),
            ⟨some prev_crop, st.previous_head_count,
              [⟨latest_crop, img, current_head_count⟩]⟩)

/-- The shape combination on which the rejected-change flush prefers the
change hypothesis: a Stacked previous decision against a Single change
hypothesis, the only arm of the source's match that does not fall through
to the previous decision. -/
def isStackedSingle : CropResult → CropResult → Bool
  | CropResult.Stacked _ _, CropResult.Single _ => true
  | _, _ => false

/-- Full containment of a detection box in a crop area (both axes), the
reading of the claim's "fully contained". -/
def hbbInCrop (b : Hbb) (c : CropArea) : Prop :=
  c.x ≤ b.xmin ∧ b.xmax ≤ c.x + c.width ∧ c.y ≤ b.ymin ∧ b.ymax ≤ c.y + c.height

/-- Horizontal containment of a detection box in a crop area, the property
the source's own tests assert for the stacked two-head layout. -/
def hbbInCropX (b : Hbb) (c : CropArea) : Prop :=
  c.x ≤ b.xmin ∧ b.xmax ≤ c.x + c.width

instance (b : Hbb) (c : CropArea) : Decidable (hbbInCrop b c) := by
  unfold hbbInCrop; infer_instance

instance (b : Hbb) (c : CropArea) : Decidable (hbbInCropX b c) := by
  unfold hbbInCropX; infer_instance

/-- C1 counterexample: the comparator does not separate {4,5} from {6+}:
is_crop_class_same returns true on (4,6) and (5,6), where the claim demands
false. -/
theorem is_crop_class_same_four_six_counterexample :
    is_crop_class_same 4 6 = true ∧ is_crop_class_same 5 6 = true ∧ ¬ specSameBucket 4 6 := by
  decide

/-- C1 (amended): is_crop_class_same n1 n2 is true iff n1 and n2 map to the
same bucket of the partition {0}, {1}, {2}, {3}, {4,5,6,...}; in particular
counts 4, 5 and 6 all share one bucket. -/
theorem is_crop_class_same_iff_code_bucket (n1 n2 : ℕ) :
    is_crop_class_same n1 n2 = true ↔ codeSameBucket n1 n2 := by
  rcases n1 with _ | _ | _ | _ | m <;> rcases n2 with _ | _ | _ | _ | k <;>
    simp [is_crop_class_same, get_crop_class, codeSameBucket] <;> omega

/-- C1 witness: the amended equivalence evaluated at the concrete pairs
(4,6) and (2,3). -/
theorem is_crop_class_same_iff_code_bucket_witness :
    is_crop_class_same 4 6 = true ∧ ¬ is_crop_class_same 2 3 = true :=
  ⟨(is_crop_class_same_iff_code_bucket 4 6).mpr (by decide),
   fun hc => (by decide : ¬ codeSameBucket 2 3) ((is_crop_class_same_iff_code_bucket 2 3).mp hc)⟩

/-- C4: with a stored previous score, is_cut returns true iff the current
score is below 0.08, or below similarity_threshold while the stored score
exceeds previous_similarity_threshold; with no stored score it returns true
iff the current score is below 0.08 or below similarity_threshold; and in
every case the current score becomes the stored previous score. -/
theorem cut_detector_rule (sim prevT s : ℚ) :
    (∀ p : ℚ, (CutDetector.is_cut_step ⟨some p, sim, prevT⟩ s).1 = true ↔
      s < 8 / 100 ∨ (s < sim ∧ p > prevT)) ∧
    ((CutDetector.is_cut_step ⟨none, sim, prevT⟩ s).1 = true ↔ s < 8 / 100 ∨ s < sim) ∧
    (∀ d : CutDetector, (d.is_cut_step s).2 =
      ⟨some s, d.similarity_threshold, d.previous_similarity_threshold⟩) := by
  refine ⟨fun p => ?_, ?_, fun d => ?_⟩ <;>
    simp [CutDetector.is_cut_step]

/-- C4 witness: the hysteresis rule evaluated at a moderate score after a
high previous score. -/
theorem cut_detector_rule_witness :
    (CutDetector.is_cut_step ⟨some (9 / 10), 3 / 10, 8 / 10⟩ (1 / 5)).1 = true :=
  ((cut_detector_rule (3 / 10) (8 / 10) (1 / 5)).1 (9 / 10)).mpr
    (Or.inr ⟨by norm_num, by norm_num⟩)

/-- C10: a detection passes extract_objects_above_threshold iff it has a
confidence at least the probability threshold, its label equals the
requested object name, and (unless the requested name is exactly "ball",
which bypasses the area check) its area as a fraction of frame area is at
least the area threshold; detections with missing confidence or missing
label never pass, and a missing detection list yields no objects. -/
theorem extract_objects_above_threshold_spec (hbbs : List Hbb) (object_name : String)
    (probT areaT fw fh : ℚ) (b : Hbb) :
    (b ∈ extract_objects_above_threshold (some hbbs) object_name probT areaT fw fh ↔
      b ∈ hbbs ∧ (∃ c, b.confidence = some c ∧ c ≥ probT) ∧ b.name = some object_name ∧
        (object_name = "ball" ∨ b.width * b.height / (fw * fh) ≥ areaT)) ∧
    extract_objects_above_threshold none object_name probT areaT fw fh = [] := by
  constructor
  · simp only [extract_objects_above_threshold, List.mem_filter]
    constructor
    · rintro ⟨hmem, hpred⟩
      refine ⟨hmem, ?_⟩
      rcases hc : b.confidence with _ | c <;> rcases hn : b.name with _ | nm <;>
        rw [hc, hn] at hpred <;> simp at hpred
      obtain ⟨⟨h1, h2⟩, h3⟩ := hpred
      subst h2
      exact ⟨⟨c, rfl, h1⟩, rfl, h3⟩
    · rintro ⟨hmem, ⟨c, hc, hcge⟩, hn, harea⟩
      refine ⟨hmem, ?_⟩
      rw [hc, hn]
      rcases harea with hb | ha
      · simp [hb, hcge]
      · by_cases hb : object_name = "ball" <;> simp [hb, hcge, ha]
  · rfl

/-- C8 counterexample: the similarity comparator is not reflexive for every
threshold: at the negative threshold -1 it rejects a rectangle compared to
itself. -/
theorem is_within_percentage_neg_threshold_counterexample :
    CropArea.is_within_percentage ⟨0, 0, 0, 0⟩ ⟨0, 0, 0, 0⟩ 1 (-1) = false := by
  norm_num [CropArea.is_within_percentage, f32_epsilon]

/-- C8 (amended): the similarity comparator is reflexive for every
non-negative threshold (for every rectangle and frame width), and is
monotonic in the threshold for all rectangles, frame widths and threshold
pairs t1 < t2. -/
theorem is_within_percentage_props :
    (∀ (r : CropArea) (fw t : ℚ), 0 ≤ t →
      CropArea.is_within_percentage r r fw t = true) ∧
    (∀ (a b : CropArea) (fw t1 t2 : ℚ), t1 < t2 →
      CropArea.is_within_percentage a b fw t1 = true →
      CropArea.is_within_percentage a b fw t2 = true) := by
  constructor
  · intro r fw t ht
    simp only [CropArea.is_within_percentage, sub_self, abs_zero, zero_div,
      Bool.and_eq_true, decide_eq_true_iff, and_self]
    have : (0 : ℚ) < f32_epsilon := by norm_num [f32_epsilon]
    linarith
  · intro a b fw t1 t2 hlt h
    simp only [CropArea.is_within_percentage, Bool.and_eq_true, decide_eq_true_iff] at h ⊢
    obtain ⟨⟨⟨hx, hy⟩, hw⟩, hh⟩ := h
    have hdiv : t1 / 100 < t2 / 100 := by linarith
    exact ⟨⟨⟨by linarith, by linarith⟩, by linarith⟩, by linarith⟩

/-- C8 witness: reflexivity at threshold 5 and monotonicity from threshold
8 to 9 on concrete rectangles. -/
theorem is_within_percentage_props_witness :
    CropArea.is_within_percentage ⟨1, 2, 3, 4⟩ ⟨1, 2, 3, 4⟩ 100 5 = true ∧
    CropArea.is_within_percentage ⟨0, 0, 0, 0⟩ ⟨1, 0, 0, 0⟩ 100 9 = true :=
  ⟨is_within_percentage_props.1 ⟨1, 2, 3, 4⟩ 100 5 (by norm_num),
   is_within_percentage_props.2 ⟨0, 0, 0, 0⟩ ⟨1, 0, 0, 0⟩ 100 8 9 (by norm_num)
     (by norm_num [CropArea.is_within_percentage, f32_epsilon])⟩

/-- The rejected-change crop choice of src/main.rs, restated through
isStackedSingle. -/
theorem reject_choice_eq (prev change : CropResult) :
    (match prev, change with
      | CropResult.Stacked _ _, CropResult.Single _ => change
      | _, _ => prev) =
      (if isStackedSingle prev change then change else prev) := by
  cases prev <;> cases change <;> rfl

/-- C9: with smoothing duration d at least 1, one step of the main.rs
history-buffered state machine keeps the history buffer's length at most
d: the change hypothesis is re-stashed only while the length is below d,
the buffer is flushed when the length reaches d, and every other branch
empties the buffer or leaves at most one fresh entry. -/
theorem mainStep_history_bounded (st : SmoothState) (img : ℕ) (latest_crop : CropResult)
    (current_head_count : ℕ) (fw t : ℚ) (d : ℕ) (hd1 : 1 ≤ d)
    (hlen : st.history.length ≤ d) :
    ((mainStep st img latest_crop current_head_count fw t d).2).history.length ≤ d := by
  obtain ⟨pc, phc, hist⟩ := st
  cases pc with
  | none => simpa [mainStep] using hlen
  | some prev =>
    cases hist with
    | nil =>
      simp only [mainStep]
      split_ifs <;> simp <;> omega
    | cons front rest =>
      simp only [mainStep] at hlen ⊢
      split_ifs with h1 h2 h3 <;>
        simp only [SmoothState.mk.injEq, List.length_nil, List.length_append,
          List.length_cons, List.length_map] at * <;> omega

/-- C9 witness: the bound evaluated on a concrete one-frame buffer with
duration 1. -/
theorem mainStep_history_bounded_witness :
    ((mainStep ⟨none, 0, []⟩ 0 (CropResult.Single ⟨0, 0, 0, 0⟩) 0 1 1 1).2).history.length ≤ 1 :=
  mainStep_history_bounded ⟨none, 0, []⟩ 0 (CropResult.Single ⟨0, 0, 0, 0⟩) 0 1 1 1
    (by norm_num) (by simp)

/-- C6 counterexample: in the history-buffered smoothing variant, after a
cut is detected in the rejected-change branch the candidate decision is
not adopted as the new previous decision: the previous decision stays in
force (and the candidate is stashed into a fresh buffer instead). -/
theorem hsStep_cut_keeps_previous_counterexample :
    ((hsStep ⟨some (CropResult.Single ⟨0, 0, 10, 10⟩), 1,
        [⟨CropResult.Single ⟨500, 0, 10, 10⟩, 7, 1⟩]⟩
      9 (CropResult.Single ⟨900, 0, 10, 10⟩) 1 1000 1 3 true).2).previous_crop =
      some (CropResult.Single ⟨0, 0, 10, 10⟩) ∧
    (CropResult.Single (⟨0, 0, 10, 10⟩ : CropArea)) ≠ CropResult.Single ⟨900, 0, 10, 10⟩ := by
  constructor
  · norm_num [hsStep, is_crop_class_same, get_crop_class, is_crop_similar,
      CropArea.is_within_percentage, f32_epsilon]
  · simp

/-- C6 (amended): in the history-buffered smoothing variant a cut is only
consulted when the standing change hypothesis is rejected; on a cut the
whole buffer is flushed replaying every buffered frame with the previous
decision (not the candidate), the previous decision and its recorded count
stay in force, and the candidate is stashed as the seed of a fresh
buffer. -/
theorem hsStep_cut_flushes_with_previous (st : SmoothState) (img : ℕ)
    (latest_crop : CropResult) (current_head_count : ℕ) (fw t : ℚ) (d : ℕ)
    (prev : CropResult) (front : FrameData) (rest : List FrameData)
    (hprev : st.previous_crop = some prev)
    (hhist : st.history = front :: rest)
    (hns : (is_crop_class_same current_head_count st.previous_head_count &&
      is_crop_similar latest_crop prev fw t) = false)
    (hrej : (is_crop_similar latest_crop front.crop fw t &&
      is_crop_class_same current_head_count front.head_count) = false) :
    hsStep st img latest_crop current_head_count fw t d true =
      ((front :: rest).map (fun f => (f.image, prev)),
        ⟨some prev, st.previous_head_count, [⟨latest_crop, img, current_head_count⟩]⟩) := by
  obtain ⟨pc, phc, hist⟩ := st
  simp only at hprev hhist
  subst hprev hhist
  simp only [hsStep, hns, Bool.false_eq_true, if_false, hrej, if_true]

/-- C6 witness: the amended cut behaviour evaluated on a concrete
one-frame buffer. -/
theorem hsStep_cut_flushes_with_previous_witness :
    hsStep ⟨some (CropResult.Single ⟨0, 0, 10, 10⟩), 1,
        [⟨CropResult.Single ⟨500, 0, 10, 10⟩, 7, 1⟩]⟩
      9 (CropResult.Single ⟨900, 0, 10, 10⟩) 1 1000 1 3 true =
      ([(7, CropResult.Single ⟨0, 0, 10, 10⟩)],
        ⟨some (CropResult.Single ⟨0, 0, 10, 10⟩), 1,
          [⟨CropResult.Single ⟨900, 0, 10, 10⟩, 9, 1⟩]⟩) := by
  have h := hsStep_cut_flushes_with_previous
    ⟨some (CropResult.Single ⟨0, 0, 10, 10⟩), 1,
      [⟨CropResult.Single ⟨500, 0, 10, 10⟩, 7, 1⟩]⟩
    9 (CropResult.Single ⟨900, 0, 10, 10⟩) 1 1000 1 3
    (CropResult.Single ⟨0, 0, 10, 10⟩)
    ⟨CropResult.Single ⟨500, 0, 10, 10⟩, 7, 1⟩ [] rfl rfl
    (by norm_num [is_crop_class_same, get_crop_class, is_crop_similar,
      CropArea.is_within_percentage, f32_epsilon])
    (by norm_num [is_crop_class_same, get_crop_class, is_crop_similar,
      CropArea.is_within_percentage, f32_epsilon])
  simpa using h

/-- C7 counterexample: when the change hypothesis is rejected with a
Resize previous decision and a Single change hypothesis, main.rs flushes
the buffer with the previous (Resize) decision, not with the change
hypothesis as the claim's "Stacked or Resize yields to Single" demands. -/
theorem mainStep_reject_resize_counterexample :
    (mainStep ⟨some (CropResult.Resize ⟨0, 0, 100, 100⟩), 1,
        [⟨CropResult.Single ⟨50, 0, 10, 10⟩, 7, 1⟩]⟩
      9 (CropResult.Single ⟨900, 0, 10, 10⟩) 1 1000 1 3).1 =
      [(7, CropResult.Resize ⟨0, 0, 100, 100⟩)] ∧
    (CropResult.Resize (⟨0, 0, 100, 100⟩ : CropArea)) ≠ CropResult.Single ⟨50, 0, 10, 10⟩ := by
  constructor
  · norm_num [mainStep, is_crop_class_same, get_crop_class, main_is_crop_similar,
      CropArea.is_within_percentage, f32_epsilon]
  · simp

/-- C7 (amended): whenever the standing change hypothesis is rejected in
the main.rs history-buffered variant, the buffered frames are flushed
using the change-hypothesis decision exactly when the previous decision is
Stacked and the change hypothesis is Single, and using the previous
decision in every other shape combination (a Resize previous does not
yield); afterwards a fresh buffer is started seeded with the new
candidate, and the previous decision stays in force. -/
theorem mainStep_reject_flush_choice (st : SmoothState) (img : ℕ)
    (latest_crop : CropResult) (current_head_count : ℕ) (fw t : ℚ) (d : ℕ)
    (prev : CropResult) (front : FrameData) (rest : List FrameData)
    (hprev : st.previous_crop = some prev)
    (hhist : st.history = front :: rest)
    (hns : (is_crop_class_same current_head_count st.previous_head_count &&
      main_is_crop_similar latest_crop prev fw t) = false)
    (hrej : (main_is_crop_similar latest_crop front.crop fw t &&
      is_crop_class_same current_head_count front.head_count) = false) :
    mainStep st img latest_crop current_head_count fw t d =
      ((front :: rest).map (fun f =>
          (f.image, if isStackedSingle prev front.crop then front.crop else prev)),
        ⟨some prev, st.previous_head_count, [⟨latest_crop, img, current_head_count⟩]⟩) := by
  obtain ⟨pc, phc, hist⟩ := st
  simp only at hprev hhist
  subst hprev hhist
  simp only [mainStep, hns, Bool.false_eq_true, if_false, hrej,
    reject_choice_eq prev front.crop]

/-- C7 witness: the amended flush choice evaluated on a concrete buffer
with a Stacked previous decision and a Single change hypothesis (the
change hypothesis is used for the flush). -/
theorem mainStep_reject_flush_choice_witness :
    mainStep ⟨some (CropResult.Stacked ⟨0, 0, 10, 10⟩ ⟨500, 0, 10, 10⟩), 1,
        [⟨CropResult.Single ⟨50, 0, 10, 10⟩, 7, 1⟩]⟩
      9 (CropResult.Single ⟨900, 0, 10, 10⟩) 1 1000 1 3 =
      ([(7, CropResult.Single ⟨50, 0, 10, 10⟩)],
        ⟨some (CropResult.Stacked ⟨0, 0, 10, 10⟩ ⟨500, 0, 10, 10⟩), 1,
          [⟨CropResult.Single ⟨900, 0, 10, 10⟩, 9, 1⟩]⟩) := by
  have h := mainStep_reject_flush_choice
    ⟨some (CropResult.Stacked ⟨0, 0, 10, 10⟩ ⟨500, 0, 10, 10⟩), 1,
      [⟨CropResult.Single ⟨50, 0, 10, 10⟩, 7, 1⟩]⟩
    9 (CropResult.Single ⟨900, 0, 10, 10⟩) 1 1000 1 3
    (CropResult.Stacked ⟨0, 0, 10, 10⟩ ⟨500, 0, 10, 10⟩)
    ⟨CropResult.Single ⟨50, 0, 10, 10⟩, 7, 1⟩ [] rfl rfl
    (by norm_num [is_crop_class_same, get_crop_class, main_is_crop_similar,
      CropArea.is_within_percentage, f32_epsilon])
    (by norm_num [is_crop_class_same, get_crop_class, main_is_crop_similar,
      CropArea.is_within_percentage, f32_epsilon])
  simpa [isStackedSingle] using h

/-- C5 counterexample: with zero detections and exactly 2 prior tracked
positions ((0,0,10,10) two frames ago, (5,0,10,10) last frame) on a
1920-wide frame, the ball processor performs no prediction: it reuses the
previous crop and clears the last-frame slot, instead of producing the
linearly extrapolated rectangle (10,0,10,10). -/
theorem ballStep_two_positions_counterexample :
    ballStep ⟨some (CropResult.Single ⟨0, 0, 810, 1080⟩), true, none,
        some ⟨0, 0, 10, 10, none, none⟩, some ⟨5, 0, 10, 10, none, none⟩,
        ⟨some (9 / 10), 3 / 10, 8 / 10⟩⟩ (9 / 10) 1920 1080
      (CropResult.Single ⟨700, 0, 810, 1080⟩) [] =
      some (CropResult.Single ⟨0, 0, 810, 1080⟩,
        ⟨some (CropResult.Single ⟨0, 0, 810, 1080⟩), true, some ⟨0, 0, 10, 10, none, none⟩,
          some ⟨5, 0, 10, 10, none, none⟩, none, ⟨some (9 / 10), 3 / 10, 8 / 10⟩⟩) ∧
    (none : Option Hbb) ≠ some (Hbb.from_xywh 10 0 10 10) := by
  constructor
  · norm_num [ballStep, CutDetector.is_cut_step]
  · simp

/-- C5 (amended): with zero detections of the tracked object and exactly 2
prior tracked positions (no third), the ball processor makes no prediction
and reuses the previous decision unchanged, clearing the newest history
slot; the motion predictor runs only once 3 prior positions exist, and
then produces predicted = last + v2 + 0.5·(v2 - v1) per axis (with
v1 = prev - prevprev, v2 = last - prev), keeping the last width and height
and clamping the top-left into [0, max] on each axis. -/
theorem ballStep_two_positions_no_prediction :
    (∀ (st : BallState) (score fw fh : ℚ) (latest_crop : CropResult) (p q : Hbb)
      (c : CropResult),
      st.has_image = true →
      (st.detector.is_cut_step score).1 = false →
      st.hbb_three_frames_ago = none →
      st.hbb_two_frames_ago = some p →
      st.hbb_last_frame = some q →
      st.previous_crop = some c →
      ballStep st score fw fh latest_crop [] =
        some (c, ⟨some c, true, some p, some q, none, (st.detector.is_cut_step score).2⟩)) ∧
    (∀ (p1 p2 p3 : Hbb) (mx my : ℚ),
      predict_current_hbb p1 p2 p3 mx my =
        Hbb.from_xywh
          (min (max (p3.xmin + (p3.xmin - p2.xmin) +
            (1 / 2) * ((p3.xmin - p2.xmin) - (p2.xmin - p1.xmin))) 0) mx)
          (min (max (p3.ymin + (p3.ymin - p2.ymin) +
            (1 / 2) * ((p3.ymin - p2.ymin) - (p2.ymin - p1.ymin))) 0) my)
          p3.width p3.height) := by
  constructor
  · intro st score fw fh latest_crop p q c hi hcut h3 h2 h1 hpc
    obtain ⟨pc, him, a3, a2, a1, det⟩ := st
    simp only at hi hcut h3 h2 h1 hpc
    subst hi h3 h2 h1 hpc
    simp only [ballStep, if_true, hcut, Bool.false_eq_true, if_false,
      List.length_nil, gt_iff_lt, lt_self_iff_false]
  · intro p1 p2 p3 mx my
    rfl

/-- C5 witness: the amended no-prediction behaviour evaluated at the
concrete 2-position history of the claim. -/
theorem ballStep_two_positions_no_prediction_witness :
    ballStep ⟨some (CropResult.Single ⟨0, 0, 810, 1080⟩), true, none,
        some ⟨0, 0, 10, 10, none, none⟩, some ⟨5, 0, 10, 10, none, none⟩,
        ⟨some (9 / 10), 3 / 10, 8 / 10⟩⟩ (9 / 10) 1920 1080
      (CropResult.Single ⟨700, 0, 810, 1080⟩) [] =
      some (CropResult.Single ⟨0, 0, 810, 1080⟩,
        ⟨some (CropResult.Single ⟨0, 0, 810, 1080⟩), true, some ⟨0, 0, 10, 10, none, none⟩,
          some ⟨5, 0, 10, 10, none, none⟩, none, ⟨some (9 / 10), 3 / 10, 8 / 10⟩⟩) := by
  have h := ballStep_two_positions_no_prediction.1
    ⟨some (CropResult.Single ⟨0, 0, 810, 1080⟩), true, none, some ⟨0, 0, 10, 10, none, none⟩,
      some ⟨5, 0, 10, 10, none, none⟩, ⟨some (9 / 10), 3 / 10, 8 / 10⟩⟩
    (9 / 10) 1920 1080 (CropResult.Single ⟨700, 0, 810, 1080⟩)
    ⟨0, 0, 10, 10, none, none⟩ ⟨5, 0, 10, 10, none, none⟩ (CropResult.Single ⟨0, 0, 810, 1080⟩)
    rfl (by norm_num [CutDetector.is_cut_step]) rfl rfl rfl rfl
  simpa [CutDetector.is_cut_step] using h

theorem find?_isSome_of_exists {α : Type} (p : α → Bool) (l : List α)
    (h : ∃ x ∈ l, p x = true) : (l.find? p).isSome = true := by
  induction l with
  | nil => simp at h
  | cons hd tl ih =>
    by_cases hp : p hd = true
    · simp [List.find?_cons_of_pos _ hp]
    · rcases h with ⟨x, hx, hpx⟩
      rcases List.mem_cons.mp hx with rfl | hmem
      · exact absurd hpx hp
      · rw [List.find?_cons_of_neg _ (by simpa using hp)]
        exact ih ⟨x, hmem, hpx⟩

theorem sort3_fst_cases (a b c : ℚ) :
    (sort3 a b c).1 = a ∨ (sort3 a b c).1 = b ∨ (sort3 a b c).1 = c := by
  unfold sort3; split_ifs <;> simp

theorem sort3_snd_cases (a b c : ℚ) :
    (sort3 a b c).2.1 = a ∨ (sort3 a b c).2.1 = b ∨ (sort3 a b c).2.1 = c := by
  unfold sort3; split_ifs <;> simp

theorem calculate_crop_from_largest_head_isSome (fw fh : ℚ) (l : List Hbb) (h : l ≠ []) :
    (calculate_crop_from_largest_head fw fh l).isSome = true := by
  cases l with
  | nil => exact absurd rfl h
  | cons hd tl => simp [calculate_crop_from_largest_head]

theorem calculate_four_and_five_heads_crop_isSome (u : Bool) (fw fh : ℚ) (heads : List Hbb)
    (h : heads ≠ []) : (calculate_four_and_five_heads_crop u fw fh heads).isSome = true := by
  simp only [calculate_four_and_five_heads_crop]
  split_ifs <;> simp [calculate_crop_from_largest_head_isSome fw fh heads h]

theorem calculate_two_heads_crop_isSome (u : Bool) (fw fh : ℚ) (h1 h2 : Hbb) :
    (calculate_two_heads_crop u fw fh h1 h2).isSome = true := by
  simp only [calculate_two_heads_crop]
  split_ifs <;> simp [calculate_crop_from_largest_head]

theorem calculate_three_heads_crop_isSome (u : Bool) (fw fh : ℚ) (a b c : Hbb) :
    (calculate_three_heads_crop u fw fh [a, b, c]).isSome = true := by
  simp only [calculate_three_heads_crop]
  split_ifs with hcond
  · have hf1 : (([a, b, c].find?
        (fun hd => decide (|hd.cx - (sort3 a.cx b.cx c.cx).1| < 1))).isSome) = true := by
      apply find?_isSome_of_exists
      rcases sort3_fst_cases a.cx b.cx c.cx with h | h | h
      · exact ⟨a, by simp, by simp [h]⟩
      · exact ⟨b, by simp, by simp [h]⟩
      · exact ⟨c, by simp, by simp [h]⟩
    have hf2 : (([a, b, c].find?
        (fun hd => decide (|hd.cx - (sort3 a.cx b.cx c.cx).2.1| < 1))).isSome) = true := by
      apply find?_isSome_of_exists
      rcases sort3_snd_cases a.cx b.cx c.cx with h | h | h
      · exact ⟨a, by simp, by simp [h]⟩
      · exact ⟨b, by simp, by simp [h]⟩
      · exact ⟨c, by simp, by simp [h]⟩
    obtain ⟨x1, hx1⟩ := Option.isSome_iff_exists.mp hf1
    obtain ⟨x2, hx2⟩ := Option.isSome_iff_exists.mp hf2
    rw [hx1, hx2]
    simp
  · exact calculate_four_and_five_heads_crop_isSome u fw fh [a, b, c] (by simp)

/-- C2: the crop engine is total: for every stacking/graphic flag, frame
size and head list, calculate_crop_area reaches none of its panic or
error sites and returns a crop decision. -/
theorem calculate_crop_area_total (u g : Bool) (fw fh : ℚ) (heads : List Hbb) :
    (calculate_crop_area u g fw fh heads).isSome = true := by
  rcases heads with _ | ⟨a, _ | ⟨b, _ | ⟨c, _ | ⟨e, tl⟩⟩⟩⟩
  · simp [calculate_crop_area]
  · simp [calculate_crop_area]
  · simp only [calculate_crop_area]
    exact calculate_two_heads_crop_isSome u fw fh a b
  · simp only [calculate_crop_area]
    exact calculate_three_heads_crop_isSome u fw fh a b c
  · simp only [calculate_crop_area]
    split_ifs
    · exact calculate_four_and_five_heads_crop_isSome u fw fh _ (by simp)
    · simp

theorem stackedCrop1X_contains (l : Hbb) (W : ℚ) (h0 : 0 ≤ l.xmin) (hle : l.xmin ≤ l.xmax)
    (h2 : l.xmax ≤ W + W) (hw : l.xmax - l.xmin ≤ W) :
    stackedCrop1X l W ≤ l.xmin ∧ l.xmax ≤ stackedCrop1X l W + W := by
  have hW : 0 ≤ W := by linarith
  simp only [stackedCrop1X]
  by_cases ha : l.xmax > 0 + W
  · rw [if_pos ha]
    have hb : ¬ (l.xmin < l.xmax - W) := by simp only [not_lt]; linarith
    rw [if_neg hb, max_eq_left (by linarith), min_eq_left (by linarith)]
    constructor <;> linarith
  · rw [if_neg ha]
    have hb : ¬ (l.xmin < (0 : ℚ)) := not_lt.mpr h0
    have ha' := not_lt.mp ha
    rw [if_neg hb, max_self, min_eq_left hW]
    constructor <;> linarith

theorem stackedCrop2X_contains (r : Hbb) (W : ℚ) (h0 : 0 ≤ r.xmin) (hle : r.xmin ≤ r.xmax)
    (h2 : r.xmax ≤ W + W) (hw : r.xmax - r.xmin ≤ W) :
    stackedCrop2X r W ≤ r.xmin ∧ r.xmax ≤ stackedCrop2X r W + W := by
  have hW : 0 ≤ W := by linarith
  simp only [stackedCrop2X]
  by_cases ha : r.xmin < W
  · rw [if_pos ha]
    have hb : ¬ (r.xmax > r.xmin + W) := by simp only [not_lt]; linarith
    rw [if_neg hb, max_eq_left h0, min_eq_left (le_of_lt ha)]
    constructor <;> linarith
  · rw [if_neg ha]
    have hb : ¬ (r.xmax > W + W) := not_lt.mpr h2
    have ha' := not_lt.mp ha
    rw [if_neg hb, max_eq_left hW, min_self]
    constructor <;> linarith

theorem default_halves_contain (x : Hbb) (W : ℚ) (h0 : 0 ≤ x.xmin) (hle : x.xmin ≤ x.xmax)
    (h2 : x.xmax ≤ W + W)
    (hno : ¬ (max (min x.xmax (0 + W) - max x.xmin 0) 0 > 0 ∧
      max (min x.xmax (W + W) - max x.xmin W) 0 > 0)) :
    (0 ≤ x.xmin ∧ x.xmax ≤ 0 + W) ∨ (W ≤ x.xmin ∧ x.xmax ≤ W + W) := by
  have hmx0 : max x.xmin 0 = x.xmin := max_eq_left h0
  rcases not_and_or.mp hno with hA | hB
  · have key : min x.xmax (0 + W) ≤ x.xmin := by
      have ht := le_trans (le_max_left (min x.xmax (0 + W) - max x.xmin 0) 0) (not_lt.mp hA)
      rw [hmx0] at ht
      linarith
    by_cases hc : x.xmax ≤ 0 + W
    · exact Or.inl ⟨h0, hc⟩
    · right
      have hminW : min x.xmax (0 + W) = 0 + W := min_eq_right (le_of_not_le hc)
      rw [hminW] at key
      exact ⟨by linarith, h2⟩
  · have key : x.xmax ≤ max x.xmin W := by
      have ht := le_trans (le_max_left (min x.xmax (W + W) - max x.xmin W) 0) (not_lt.mp hB)
      have hminx : min x.xmax (W + W) = x.xmax := min_eq_left h2
      rw [hminx] at ht
      linarith
    rcases le_total x.xmin W with hxm | hxm
    · left
      have hmw : max x.xmin W = W := max_eq_right hxm
      rw [hmw] at key
      exact ⟨h0, by linarith⟩
    · exact Or.inr ⟨hxm, h2⟩

/-- C3 counterexample: two objects whose joint bounding width exceeds
0.75 of the frame height, with stacking enabled, where the first object
(wider than half the frame) is fully contained in neither output
rectangle of the Stacked decision. -/
theorem two_heads_crop_counterexample :
    calculate_two_heads_crop true 1920 1080 ⟨0, 500, 1200, 100, none, none⟩
        ⟨1800, 500, 100, 100, none, none⟩ =
      some (CropResult.Stacked ⟨0, 340 / 3, 960, 2560 / 3⟩ ⟨960, 340 / 3, 960, 2560 / 3⟩) ∧
    ¬ (hbbInCrop ⟨0, 500, 1200, 100, none, none⟩ ⟨0, 340 / 3, 960, 2560 / 3⟩ ∨
       hbbInCrop ⟨0, 500, 1200, 100, none, none⟩ ⟨960, 340 / 3, 960, 2560 / 3⟩) ∧
    1080 * (3 / 4) < (calculate_bounding_box [⟨0, 500, 1200, 100, none, none⟩,
      ⟨1800, 500, 100, 100, none, none⟩]).width := by
  refine ⟨?_, ?_, ?_⟩
  · norm_num [calculate_two_heads_crop, calculate_bounding_box, half_stack_dims,
      vertical_y_for_heads, stackedCrop1X, stackedCrop2X, Hbb.xmin, Hbb.xmax, Hbb.ymin,
      Hbb.ymax, Hbb.cx, center_x_of_bbox, min_def, max_def]
  · norm_num [hbbInCrop, Hbb.xmin, Hbb.xmax, Hbb.ymin, Hbb.ymax]
  · norm_num [calculate_bounding_box, Hbb.xmin, Hbb.xmax, Hbb.ymin, Hbb.ymax,
      min_def, max_def]

/-- C3 (amended): for two objects of non-negative width, each lying within
the frame horizontally and no wider than half the frame width, whose joint
bounding width exceeds 0.75 of the frame height, the stacked two-object
rule returns a Stacked decision and each input object is horizontally
contained in at least one of the two output rectangles (vertical
containment is not guaranteed by the nudging rule). -/
theorem two_heads_stacked_contains (h1 h2 : Hbb) (fw fh : ℚ)
    (hw1 : 0 ≤ h1.w) (hw2 : 0 ≤ h2.w)
    (hin1l : 0 ≤ h1.xmin) (hin1r : h1.xmax ≤ fw)
    (hin2l : 0 ≤ h2.xmin) (hin2r : h2.xmax ≤ fw)
    (hhw1 : h1.w ≤ fw / 2) (hhw2 : h2.w ≤ fw / 2)
    (hwide : fh * (3 / 4) < (calculate_bounding_box [h1, h2]).width) :
    ∃ c1 c2, calculate_two_heads_crop true fw fh h1 h2 = some (CropResult.Stacked c1 c2) ∧
      (hbbInCropX h1 c1 ∨ hbbInCropX h1 c2) ∧ (hbbInCropX h2 c1 ∨ hbbInCropX h2 c2) := by
  have hnb : ¬ ((calculate_bounding_box [h1, h2]).width ≤ fh * (3 / 4)) := not_le.mpr hwide
  have w1 : h1.xmin ≤ h1.xmax := by simp only [Hbb.xmin, Hbb.xmax]; linarith
  have w2 : h2.xmin ≤ h2.xmax := by simp only [Hbb.xmin, Hbb.xmax]; linarith
  have j1 : h1.xmax ≤ fw * (1 / 2) + fw * (1 / 2) := by linarith
  have j2 : h2.xmax ≤ fw * (1 / 2) + fw * (1 / 2) := by linarith
  have k1 : h1.xmax - h1.xmin ≤ fw * (1 / 2) := by
    simp only [Hbb.xmin, Hbb.xmax]; linarith
  have k2 : h2.xmax - h2.xmin ≤ fw * (1 / 2) := by
    simp only [Hbb.xmin, Hbb.xmax]; linarith
  simp only [calculate_two_heads_crop, half_stack_dims]
  rw [if_neg hnb]
  simp only [if_true]
  by_cases hcx : h1.cx ≤ h2.cx
  · rw [if_pos hcx]
    dsimp only
    split_ifs with hsp
    · refine ⟨_, _, rfl, ?_, ?_⟩
      · exact Or.inl
          ⟨(stackedCrop1X_contains h1 (fw * (1 / 2)) hin1l w1 j1 k1).1,
           (stackedCrop1X_contains h1 (fw * (1 / 2)) hin1l w1 j1 k1).2⟩
      · exact Or.inr
          ⟨(stackedCrop2X_contains h2 (fw * (1 / 2)) hin2l w2 j2 k2).1,
           (stackedCrop2X_contains h2 (fw * (1 / 2)) hin2l w2 j2 k2).2⟩
    · simp only [Bool.or_eq_true, Bool.and_eq_true, decide_eq_true_iff, not_or] at hsp
      obtain ⟨hA, hB⟩ := hsp
      refine ⟨_, _, rfl, ?_, ?_⟩
      · rcases default_halves_contain h1 (fw * (1 / 2)) hin1l w1 j1 hA with h | h
        · exact Or.inl h
        · exact Or.inr h
      · rcases default_halves_contain h2 (fw * (1 / 2)) hin2l w2 j2 hB with h | h
        · exact Or.inl h
        · exact Or.inr h
  · rw [if_neg hcx]
    dsimp only
    split_ifs with hsp
    · refine ⟨_, _, rfl, ?_, ?_⟩
      · exact Or.inr
          ⟨(stackedCrop2X_contains h1 (fw * (1 / 2)) hin1l w1 j1 k1).1,
           (stackedCrop2X_contains h1 (fw * (1 / 2)) hin1l w1 j1 k1).2⟩
      · exact Or.inl
          ⟨(stackedCrop1X_contains h2 (fw * (1 / 2)) hin2l w2 j2 k2).1,
           (stackedCrop1X_contains h2 (fw * (1 / 2)) hin2l w2 j2 k2).2⟩
    · simp only [Bool.or_eq_true, Bool.and_eq_true, decide_eq_true_iff, not_or] at hsp
      obtain ⟨hA, hB⟩ := hsp
      refine ⟨_, _, rfl, ?_, ?_⟩
      · rcases default_halves_contain h1 (fw * (1 / 2)) hin1l w1 j1 hB with h | h
        · exact Or.inl h
        · exact Or.inr h
      · rcases default_halves_contain h2 (fw * (1 / 2)) hin2l w2 j2 hA with h | h
        · exact Or.inl h
        · exact Or.inr h

/-- C3 witness: the amended containment evaluated on two concrete heads of
a 1920x1080 frame. -/
theorem two_heads_stacked_contains_witness :
    ∃ c1 c2, calculate_two_heads_crop true 1920 1080 ⟨200, 500, 100, 100, none, none⟩
        ⟨1600, 500, 100, 100, none, none⟩ = some (CropResult.Stacked c1 c2) ∧
      (hbbInCropX ⟨200, 500, 100, 100, none, none⟩ c1 ∨
        hbbInCropX ⟨200, 500, 100, 100, none, none⟩ c2) ∧
      (hbbInCropX ⟨1600, 500, 100, 100, none, none⟩ c1 ∨
        hbbInCropX ⟨1600, 500, 100, 100, none, none⟩ c2) :=
  two_heads_stacked_contains ⟨200, 500, 100, 100, none, none⟩ ⟨1600, 500, 100, 100, none, none⟩
    1920 1080 (by norm_num) (by norm_num)
    (by norm_num [Hbb.xmin]) (by norm_num [Hbb.xmax])
    (by norm_num [Hbb.xmin]) (by norm_num [Hbb.xmax])
    (by norm_num) (by norm_num)
    (by norm_num [calculate_bounding_box, Hbb.xmin, Hbb.xmax, Hbb.ymin, Hbb.ymax,
      min_def, max_def])

end Land2Port
